import Mathlib

/-!
Shallow embedding of `src/index.ts` of the rps-arduino-io repository: the
single-byte command encoding, the three idle animation classes
(`TurnWristAnimation`, `CycleGesturesAnimation`, `FingerWaveAnimation`), and
the `ArduinoOutput` controller with its idle-rotation scheduler.

Commands are modelled as the integer argument passed to `ArduinoOutput.send`;
an operation of the program is a function from the relevant state to the pair
of the updated state and the list of commands it sends, in emission order.
Timer-driven behaviour is modelled by explicit tick events that are no-ops
whenever the corresponding timer handle is null.
-/

namespace RPSArduino

/-- Modelled from the spec: `RPSAction` is imported from the external
`rps-stuff` dependency, whose source is not part of this repository.  The spec
fixes the three move codes as the values 0 through 2, in the order rock,
paper, scissors. -/
def RPSAction.Rock : Nat := 0

/-- Modelled from the spec: second move code of `rps-stuff`. -/
def RPSAction.Paper : Nat := 1

/-- Modelled from the spec: third move code of `rps-stuff`. -/
def RPSAction.Scissors : Nat := 2

/-- `ArduinoCommand.TurnWrist` from the `ArduinoCommand` enum in the source. -/
def ArduinoCommand.TurnWrist : Nat := 4

/-- `ArduinoCommand.ThumbRelax` from the source enum. -/
def ArduinoCommand.ThumbRelax : Nat := 5

/-- `ArduinoCommand.ThumbCurl` from the source enum. -/
def ArduinoCommand.ThumbCurl : Nat := 6

/-- `ArduinoCommand.PointerRelax` from the source enum. -/
def ArduinoCommand.PointerRelax : Nat := 7

/-- `ArduinoCommand.PointerCurl` from the source enum. -/
def ArduinoCommand.PointerCurl : Nat := 8

/-- `ArduinoCommand.MiddleRelax` from the source enum. -/
def ArduinoCommand.MiddleRelax : Nat := 9

/-- `ArduinoCommand.MiddleCurl` from the source enum. -/
def ArduinoCommand.MiddleCurl : Nat := 10

/-- `ArduinoCommand.RingRelax` from the source enum. -/
def ArduinoCommand.RingRelax : Nat := 11

/-- `ArduinoCommand.RingCurl` from the source enum. -/
def ArduinoCommand.RingCurl : Nat := 12

/-- `ArduinoCommand.PinkyRelax` from the source enum. -/
def ArduinoCommand.PinkyRelax : Nat := 13

/-- `ArduinoCommand.PinkyCurl` from the source enum. -/
def ArduinoCommand.PinkyCurl : Nat := 14

/-- The relax command code for finger `f` (0 = thumb … 4 = pinky), following
the implicit `index*2+offset` arithmetic of the source: relax codes are the
odd values 5, 7, 9, 11, 13. -/
def relaxCode (f : Nat) : Nat := f * 2 + 5

/-- The curl command code for finger `f` (0 = thumb … 4 = pinky): curl codes
are the even values 6, 8, 10, 12, 14. -/
def curlCode (f : Nat) : Nat := f * 2 + 6

/-- The JavaScript `Int8Array` element conversion applied by
`ArduinoOutput.send`: the integer is reduced modulo 2^8 and reinterpreted as a
signed 8-bit value in -128..127. -/
def toInt8 (c : Int) : Int :=
  if 128 ≤ c % 256 then c % 256 - 256 else c % 256

/-- `ArduinoOutput.send`: the list of bytes written to the serial transport by
one call, namely exactly one byte, the `Int8Array` conversion of the command.
No buffering, batching or retry exists in the source. -/
def sendBytes (command : Int) : List Int := [toInt8 command]

/-- `TurnWristAnimation` owns no state: it has no timer field. -/
structure TurnWristAnimation where
  deriving DecidableEq, Repr

/-- `TurnWristAnimation.do`: sends the turn-wrist command, schedules nothing.
(`do` is a reserved word in Lean, so the method is called `start` here.) -/
def TurnWristAnimation.start (a : TurnWristAnimation) :
    TurnWristAnimation × List Nat :=
  (a, [ArduinoCommand.TurnWrist])

/-- `TurnWristAnimation.cleanup`: a no-op. -/
def TurnWristAnimation.cleanup (a : TurnWristAnimation) :
    TurnWristAnimation × List Nat :=
  (a, [])

/-- `CycleGesturesAnimation`: its `timer` field is `none` when the interval
handle is null, and `some a` when the interval is scheduled with the captured
`action` variable currently equal to `a`. -/
structure CycleGesturesAnimation where
  timer : Option Nat
  deriving DecidableEq, Repr

/-- `CycleGesturesAnimation.cleanup`: if a timer is owned, cancel it and null
the field; sends nothing. -/
def CycleGesturesAnimation.cleanup (a : CycleGesturesAnimation) :
    CycleGesturesAnimation × List Nat :=
  if a.timer.isSome then ({ timer := none }, []) else (a, [])

/-- `CycleGesturesAnimation.do`: sends `RPSAction.Rock` and schedules the
interval with the captured `action` variable at `Rock`. -/
def CycleGesturesAnimation.start (_ : CycleGesturesAnimation) :
    CycleGesturesAnimation × List Nat :=
  ({ timer := some RPSAction.Rock }, [RPSAction.Rock])

/-- One firing of the `CycleGesturesAnimation` interval callback: increments
`action`, sends it, and self-cleans-up once `action` has reached
`RPSAction.Scissors`.  A tick with no scheduled timer does nothing. -/
def CycleGesturesAnimation.tick (a : CycleGesturesAnimation) :
    CycleGesturesAnimation × List Nat :=
  match a.timer with
  | none => (a, [])
  | some action =>
    let action' := action + 1
    if RPSAction.Scissors ≤ action' then
      ((CycleGesturesAnimation.cleanup { timer := some action' }).1, [action'])
    else
      ({ timer := some action' }, [action'])

/-- Runs `n` successive interval firings of a `CycleGesturesAnimation`,
concatenating the emitted commands. -/
def CycleGesturesAnimation.runTicks (a : CycleGesturesAnimation) :
    Nat → CycleGesturesAnimation × List Nat
  | 0 => (a, [])
  | n + 1 =>
    let p := a.tick
    let q := p.1.runTicks n
    (q.1, p.2 ++ q.2)

/-- `FingerWaveAnimation`: its `timer` field is `none` when the interval
handle is null, and `some f` when the interval is scheduled with the captured
`finger` variable currently equal to `f`. -/
structure FingerWaveAnimation where
  timer : Option Nat
  deriving DecidableEq, Repr

/-- `FingerWaveAnimation.do`: sends `RPSAction.Rock`, initializes `finger` to
4, and schedules the interval. -/
def FingerWaveAnimation.start (_ : FingerWaveAnimation) :
    FingerWaveAnimation × List Nat :=
  ({ timer := some 4 }, [RPSAction.Rock])

/-- One firing of the `FingerWaveAnimation` interval callback: sends
`(finger <= 0 ? 4 : finger - 1) * 2 + 6`, then advances `finger` to
`(finger + 1) % 5`, then sends `finger * 2 + 5`.  A tick with no scheduled
timer does nothing. -/
def FingerWaveAnimation.tick (a : FingerWaveAnimation) :
    FingerWaveAnimation × List Nat :=
  match a.timer with
  | none => (a, [])
  | some finger =>
    let c1 := (if finger ≤ 0 then 4 else finger - 1) * 2 + 6
    let finger' := (finger + 1) % 5
    let c2 := finger' * 2 + 5
    ({ timer := some finger' }, [c1, c2])

/-- `FingerWaveAnimation.cleanup`: sends `RPSAction.Paper` unconditionally,
then cancels the timer if one is owned. -/
def FingerWaveAnimation.cleanup (a : FingerWaveAnimation) :
    FingerWaveAnimation × List Nat :=
  (if a.timer.isSome then { timer := none } else a, [RPSAction.Paper])

/-- State of the `ArduinoOutput` class: `idleTimer` records whether the
rotation interval handle is non-null, `idleCurrent` mirrors the nullable index
into `idleAnimations = [FingerWave, TurnWrist, CycleGestures]`, and the three
animation instances carry their own timer state.  The `…Started` booleans are
instrumentation of the call sequence, not program fields: `waveStarted` is
true exactly between a `do` call and the following `cleanup` call on the
`FingerWaveAnimation` instance, so they record which variants are currently
in the "started, not yet stopped" state; the program operations below update
them precisely where the source invokes `do`/`cleanup`. -/
structure ArduinoOutput where
  idleTimer : Bool
  idleCurrent : Option Nat
  wave : FingerWaveAnimation
  wrist : TurnWristAnimation
  cycle : CycleGesturesAnimation
  waveStarted : Bool
  wristStarted : Bool
  cycleStarted : Bool
  deriving DecidableEq, Repr

/-- The state of a freshly constructed `ArduinoOutput`: all timer handles
null, no current idle animation, nothing started. -/
def ArduinoOutput.mk0 : ArduinoOutput :=
  { idleTimer := false, idleCurrent := none,
    wave := { timer := none }, wrist := {}, cycle := { timer := none },
    waveStarted := false, wristStarted := false, cycleStarted := false }

/-- `this.idleAnimations[i].do(this)` for the fixed rotation array
`[new FingerWaveAnimation(), new TurnWristAnimation(),
new CycleGesturesAnimation()]`, also setting the started-instrumentation bit
of the invoked variant. -/
def ArduinoOutput.animDo (s : ArduinoOutput) (i : Nat) :
    ArduinoOutput × List Nat :=
  if i = 0 then
    let p := s.wave.start
    ({ s with wave := p.1, waveStarted := true }, p.2)
  else if i = 1 then
    let p := s.wrist.start
    ({ s with wrist := p.1, wristStarted := true }, p.2)
  else
    let p := s.cycle.start
    ({ s with cycle := p.1, cycleStarted := true }, p.2)

/-- `this.idleAnimations[i].cleanup(this)`, also clearing the
started-instrumentation bit of the invoked variant. -/
def ArduinoOutput.animCleanup (s : ArduinoOutput) (i : Nat) :
    ArduinoOutput × List Nat :=
  if i = 0 then
    let p := s.wave.cleanup
    ({ s with wave := p.1, waveStarted := false }, p.2)
  else if i = 1 then
    let p := s.wrist.cleanup
    ({ s with wrist := p.1, wristStarted := false }, p.2)
  else
    let p := s.cycle.cleanup
    ({ s with cycle := p.1, cycleStarted := false }, p.2)

/-- `ArduinoOutput.stopIdleAnimations`: if `idleCurrent` is non-null, clean up
the current animation and null `idleCurrent`; then, if the rotation timer
exists, cancel it and null the handle. -/
def ArduinoOutput.stopIdleAnimations (s : ArduinoOutput) :
    ArduinoOutput × List Nat :=
  let p :=
    match s.idleCurrent with
    | some i =>
      let q := s.animCleanup i
      ({ q.1 with idleCurrent := none }, q.2)
    | none => (s, [])
  (if p.1.idleTimer then { p.1 with idleTimer := false } else p.1, p.2)

/-- `ArduinoOutput.idle`: sends `RPSAction.Paper`, then, only if no rotation
timer exists yet, schedules the repeating rotation interval. -/
def ArduinoOutput.idle (s : ArduinoOutput) : ArduinoOutput × List Nat :=
  (if s.idleTimer then s else { s with idleTimer := true }, [RPSAction.Paper])

/-- One firing of the rotation interval scheduled by `ArduinoOutput.idle`:
clean up the current animation if there is one (otherwise pre-set the index
to -1), advance `idleCurrent` cyclically modulo the rotation length 3, and
`do` the newly selected animation.  The tick can only fire while the rotation
timer exists, so it is a no-op otherwise. -/
def ArduinoOutput.rotationTick (s : ArduinoOutput) : ArduinoOutput × List Nat :=
  if s.idleTimer then
    let p :=
      match s.idleCurrent with
      | some i => s.animCleanup i
      | none => (s, [])
    let next :=
      match s.idleCurrent with
      | some i => (i + 1) % 3
      | none => 0
    let q := ArduinoOutput.animDo { p.1 with idleCurrent := some next } next
    (q.1, p.2 ++ q.2)
  else (s, [])

/-- One firing of the `CycleGesturesAnimation` interval owned by the
controller's third rotation entry; a no-op while that timer is null.  When the
tick self-cleans-up, the started-instrumentation bit is cleared, since
`cleanup` was invoked. -/
def ArduinoOutput.cycleTick (s : ArduinoOutput) : ArduinoOutput × List Nat :=
  match s.cycle.timer with
  | none => (s, [])
  | some _ =>
    let p := s.cycle.tick
    ({ s with cycle := p.1,
              cycleStarted := if p.1.timer.isSome then s.cycleStarted else false },
     p.2)

/-- One firing of the `FingerWaveAnimation` interval owned by the controller's
first rotation entry; a no-op while that timer is null. -/
def ArduinoOutput.waveTick (s : ArduinoOutput) : ArduinoOutput × List Nat :=
  match s.wave.timer with
  | none => (s, [])
  | some _ =>
    let p := s.wave.tick
    ({ s with wave := p.1 }, p.2)

/-- `ArduinoOutput.gameStart`: calls `stopIdleAnimations`, then sends
`RPSAction.Rock`. -/
def ArduinoOutput.gameStart (s : ArduinoOutput) : ArduinoOutput × List Nat :=
  let p := s.stopIdleAnimations
  (p.1, p.2 ++ [RPSAction.Rock])

/-- `ArduinoOutput.shoot(action)`: sends the action value itself. -/
def ArduinoOutput.shoot (s : ArduinoOutput) (action : Nat) :
    ArduinoOutput × List Nat :=
  (s, [action])

/-- `ArduinoOutput.countdown(state)`: sends the turn-wrist command regardless
of the countdown state. -/
def ArduinoOutput.countdown (s : ArduinoOutput) : ArduinoOutput × List Nat :=
  (s, [ArduinoCommand.TurnWrist])

/-- `ArduinoOutput.robotWin(robot, human)`: sends `RPSAction.Rock`. -/
def ArduinoOutput.robotWin (s : ArduinoOutput) (robot human : Nat) :
    ArduinoOutput × List Nat :=
  (s, [RPSAction.Rock])

/-- `ArduinoOutput.humanWin(robot, human)`: sends `RPSAction.Rock`. -/
def ArduinoOutput.humanWin (s : ArduinoOutput) (robot human : Nat) :
    ArduinoOutput × List Nat :=
  (s, [RPSAction.Rock])

/-- `ArduinoOutput.tie(action)`: sends `RPSAction.Rock`. -/
def ArduinoOutput.tie (s : ArduinoOutput) (action : Nat) :
    ArduinoOutput × List Nat :=
  (s, [RPSAction.Rock])

/-- `ArduinoOutput.score(robot, human)`: an empty body, sends nothing. -/
def ArduinoOutput.score (s : ArduinoOutput) (robot human : Nat) :
    ArduinoOutput × List Nat :=
  (s, [])

/-- `ArduinoOutput.gameStop`: sends `RPSAction.Paper`. -/
def ArduinoOutput.gameStop (s : ArduinoOutput) : ArduinoOutput × List Nat :=
  (s, [RPSAction.Paper])

/-- The events that can act on an `ArduinoOutput`: the externally triggered
method calls, and the firings of the three interval timers.  All callbacks run
on the single JavaScript execution context, so a run of the system is an
arbitrary interleaving of these events. -/
inductive ArduinoEvent where
  | idleCall
  | gameStartCall
  | stopIdleCall
  | rotationTick
  | cycleTick
  | waveTick
  | countdownCall
  | shootCall (action : Nat)
  | robotWinCall (robot human : Nat)
  | humanWinCall (robot human : Nat)
  | tieCall (action : Nat)
  | scoreCall (robot human : Nat)
  | gameStopCall
  deriving DecidableEq, Repr

/-- Dispatches one event to the corresponding operation. -/
def ArduinoOutput.step (s : ArduinoOutput) : ArduinoEvent → ArduinoOutput × List Nat
  | .idleCall => s.idle
  | .gameStartCall => s.gameStart
  | .stopIdleCall => s.stopIdleAnimations
  | .rotationTick => s.rotationTick
  | .cycleTick => s.cycleTick
  | .waveTick => s.waveTick
  | .countdownCall => s.countdown
  | .shootCall a => s.shoot a
  | .robotWinCall r h => s.robotWin r h
  | .humanWinCall r h => s.humanWin r h
  | .tieCall a => s.tie a
  | .scoreCall r h => s.score r h
  | .gameStopCall => s.gameStop

/-- Runs a sequence of events, concatenating the emitted commands. -/
def ArduinoOutput.run (s : ArduinoOutput) : List ArduinoEvent → ArduinoOutput × List Nat
  | [] => (s, [])
  | e :: evs =>
    let p := s.step e
    let q := p.1.run evs
    (q.1, p.2 ++ q.2)

/-- The number of animation variants currently in the "started, not yet
stopped" state. -/
def ArduinoOutput.startedCount (s : ArduinoOutput) : Nat :=
  (if s.waveStarted then 1 else 0) + (if s.wristStarted then 1 else 0) +
    (if s.cycleStarted then 1 else 0)

/-- The scheduler invariant: `idleCurrent` is null or a valid rotation index,
any variant in the "started, not yet stopped" state is the one `idleCurrent`
points at, and any variant owning a live interval timer is started. -/
def ArduinoOutput.Inv (s : ArduinoOutput) : Prop :=
  (s.idleCurrent = none ∨ s.idleCurrent = some 0 ∨ s.idleCurrent = some 1 ∨
    s.idleCurrent = some 2) ∧
  (s.waveStarted = true → s.idleCurrent = some 0) ∧
  (s.wristStarted = true → s.idleCurrent = some 1) ∧
  (s.cycleStarted = true → s.idleCurrent = some 2) ∧
  (s.wave.timer.isSome = true → s.waveStarted = true) ∧
  (s.cycle.timer.isSome = true → s.cycleStarted = true)

/-- No timer of any kind is live: the rotation timer handle is null and both
timer-owning animation variants hold null timer handles.  In this state no
timer callback can fire. -/
def ArduinoOutput.noTimers (s : ArduinoOutput) : Prop :=
  s.idleTimer = false ∧ s.wave.timer = none ∧ s.cycle.timer = none

/-- Whether an event is the firing of a timer belonging to the idle-animation
machinery (rotation tick or an animation variant's own tick), as opposed to an
externally triggered method call. -/
def ArduinoEvent.isTick : ArduinoEvent → Bool
  | .rotationTick => true
  | .cycleTick => true
  | .waveTick => true
  | _ => false

/-- Runs a sequence of events and collects only the commands emitted by the
idle-animation timer callbacks (the idle-animation commands), dropping the
commands emitted directly by externally triggered calls. -/
def ArduinoOutput.runIdleOut (s : ArduinoOutput) : List ArduinoEvent → List Nat
  | [] => []
  | e :: evs =>
    (if e.isTick then (s.step e).2 else []) ++ ((s.step e).1.runIdleOut evs)

theorem ArduinoOutput.inv_mk0 : ArduinoOutput.mk0.Inv := by
  refine ⟨Or.inl rfl, ?_, ?_, ?_, ?_, ?_⟩ <;> intro h <;> simp [ArduinoOutput.mk0] at h

theorem ArduinoOutput.inv_stopIdle (s : ArduinoOutput) (h : s.Inv) :
    s.stopIdleAnimations.1.Inv := by
  obtain ⟨hc, h0, h1, h2, h3, h4⟩ := h
  rcases hc with hc | hc | hc | hc <;>
    simp only [ArduinoOutput.stopIdleAnimations, ArduinoOutput.animCleanup, hc,
      FingerWaveAnimation.cleanup, TurnWristAnimation.cleanup,
      CycleGesturesAnimation.cleanup] <;>
    [skip;
     cases hw : s.wave.timer;
     skip;
     cases hcy : s.cycle.timer] <;>
    simp_all [ArduinoOutput.Inv] <;>
    split <;>
    simp_all

theorem ArduinoOutput.inv_step (s : ArduinoOutput) (e : ArduinoEvent) (h : s.Inv) :
    (s.step e).1.Inv := by
  obtain ⟨hc, h0, h1, h2, h3, h4⟩ := h
  cases e with
  | idleCall =>
      simp only [ArduinoOutput.step, ArduinoOutput.idle]
      split <;> exact ⟨hc, h0, h1, h2, h3, h4⟩
  | gameStartCall =>
      exact s.inv_stopIdle ⟨hc, h0, h1, h2, h3, h4⟩
  | stopIdleCall =>
      exact s.inv_stopIdle ⟨hc, h0, h1, h2, h3, h4⟩
  | rotationTick =>
      simp only [ArduinoOutput.step, ArduinoOutput.rotationTick]
      split
      · rcases hc with hc | hc | hc | hc <;>
          simp only [hc, ArduinoOutput.animCleanup, ArduinoOutput.animDo,
            FingerWaveAnimation.cleanup, TurnWristAnimation.cleanup,
            CycleGesturesAnimation.cleanup, FingerWaveAnimation.start,
            TurnWristAnimation.start, CycleGesturesAnimation.start] <;>
          [skip; cases hw : s.wave.timer; skip; cases hcy : s.cycle.timer] <;>
          simp_all [ArduinoOutput.Inv]
      · exact ⟨hc, h0, h1, h2, h3, h4⟩
  | cycleTick =>
      simp only [ArduinoOutput.step, ArduinoOutput.cycleTick]
      cases hcy : s.cycle.timer with
      | none => exact ⟨hc, h0, h1, h2, h3, h4⟩
      | some a =>
          have hs : s.cycleStarted = true := h4 (by simp [hcy])
          simp only [CycleGesturesAnimation.tick, hcy]
          split <;> simp_all [ArduinoOutput.Inv, CycleGesturesAnimation.cleanup]
  | waveTick =>
      simp only [ArduinoOutput.step, ArduinoOutput.waveTick]
      cases hw : s.wave.timer with
      | none => exact ⟨hc, h0, h1, h2, h3, h4⟩
      | some f =>
          have hs : s.waveStarted = true := h3 (by simp [hw])
          simp_all [ArduinoOutput.Inv, FingerWaveAnimation.tick]
  | countdownCall => exact ⟨hc, h0, h1, h2, h3, h4⟩
  | shootCall a => exact ⟨hc, h0, h1, h2, h3, h4⟩
  | robotWinCall r h => exact ⟨hc, h0, h1, h2, h3, h4⟩
  | humanWinCall r h => exact ⟨hc, h0, h1, h2, h3, h4⟩
  | tieCall a => exact ⟨hc, h0, h1, h2, h3, h4⟩
  | scoreCall r h => exact ⟨hc, h0, h1, h2, h3, h4⟩
  | gameStopCall => exact ⟨hc, h0, h1, h2, h3, h4⟩

theorem ArduinoOutput.inv_run (evs : List ArduinoEvent) (s : ArduinoOutput)
    (h : s.Inv) : (s.run evs).1.Inv := by
  induction evs generalizing s with
  | nil => exact h
  | cons e evs ih =>
      simp only [ArduinoOutput.run]
      exact ih _ (s.inv_step e h)

theorem ArduinoOutput.startedCount_le_one_of_inv (s : ArduinoOutput)
    (h : s.Inv) : s.startedCount ≤ 1 := by
  obtain ⟨hc, h0, h1, h2, -, -⟩ := h
  unfold ArduinoOutput.startedCount
  cases hw : s.waveStarted <;> cases hr : s.wristStarted <;>
    cases hcy : s.cycleStarted <;> simp_all

theorem ArduinoOutput.noTimers_stopIdle (s : ArduinoOutput) (h : s.Inv) :
    s.stopIdleAnimations.1.noTimers := by
  obtain ⟨hc, h0, h1, h2, h3, h4⟩ := h
  rcases hc with hc | hc | hc | hc <;>
    simp only [ArduinoOutput.stopIdleAnimations, ArduinoOutput.animCleanup, hc,
      FingerWaveAnimation.cleanup, TurnWristAnimation.cleanup,
      CycleGesturesAnimation.cleanup] <;>
    [cases hw : s.wave.timer; cases hw : s.wave.timer; skip;
     cases hcy : s.cycle.timer] <;>
    simp_all [ArduinoOutput.noTimers] <;>
    split <;>
    simp_all

theorem ArduinoOutput.noTimers_step (s : ArduinoOutput) (e : ArduinoEvent)
    (h : s.noTimers) (he : e ≠ ArduinoEvent.idleCall) :
    (s.step e).1.noTimers := by
  obtain ⟨ht, hw, hcy⟩ := h
  cases e with
  | idleCall => exact absurd rfl he
  | gameStartCall =>
      simp only [ArduinoOutput.step, ArduinoOutput.gameStart,
        ArduinoOutput.stopIdleAnimations]
      cases hc : s.idleCurrent with
      | none => simp_all [ArduinoOutput.noTimers]
      | some i =>
          simp only [ArduinoOutput.animCleanup]
          split <;> [skip; split] <;>
            simp_all [ArduinoOutput.noTimers, FingerWaveAnimation.cleanup,
              TurnWristAnimation.cleanup, CycleGesturesAnimation.cleanup]
  | stopIdleCall =>
      simp only [ArduinoOutput.step, ArduinoOutput.stopIdleAnimations]
      cases hc : s.idleCurrent with
      | none => simp_all [ArduinoOutput.noTimers]
      | some i =>
          simp only [ArduinoOutput.animCleanup]
          split <;> [skip; split] <;>
            simp_all [ArduinoOutput.noTimers, FingerWaveAnimation.cleanup,
              TurnWristAnimation.cleanup, CycleGesturesAnimation.cleanup]
  | rotationTick => simp_all [ArduinoOutput.step, ArduinoOutput.rotationTick,
      ArduinoOutput.noTimers]
  | cycleTick => simp_all [ArduinoOutput.step, ArduinoOutput.cycleTick,
      ArduinoOutput.noTimers]
  | waveTick => simp_all [ArduinoOutput.step, ArduinoOutput.waveTick,
      ArduinoOutput.noTimers]
  | countdownCall => exact ⟨ht, hw, hcy⟩
  | shootCall a => exact ⟨ht, hw, hcy⟩
  | robotWinCall r h => exact ⟨ht, hw, hcy⟩
  | humanWinCall r h => exact ⟨ht, hw, hcy⟩
  | tieCall a => exact ⟨ht, hw, hcy⟩
  | scoreCall r h => exact ⟨ht, hw, hcy⟩
  | gameStopCall => exact ⟨ht, hw, hcy⟩

theorem ArduinoOutput.tick_silent_of_noTimers (s : ArduinoOutput)
    (e : ArduinoEvent) (h : s.noTimers) (he : e.isTick = true) :
    (s.step e).2 = [] := by
  obtain ⟨ht, hw, hcy⟩ := h
  cases e <;> simp_all [ArduinoEvent.isTick, ArduinoOutput.step,
    ArduinoOutput.rotationTick, ArduinoOutput.cycleTick, ArduinoOutput.waveTick]

theorem ArduinoOutput.runIdleOut_eq_nil (evs : List ArduinoEvent)
    (s : ArduinoOutput) (h : s.noTimers)
    (hno : ∀ e ∈ evs, e ≠ ArduinoEvent.idleCall) : s.runIdleOut evs = [] := by
  induction evs generalizing s with
  | nil => rfl
  | cons e evs ih =>
      have he : e ≠ ArduinoEvent.idleCall := hno e (List.mem_cons_self e evs)
      simp only [ArduinoOutput.runIdleOut]
      rw [ih (s.step e).1 (s.noTimers_step e h he)
        (fun x hx => hno x (List.mem_cons_of_mem e hx))]
      cases hb : e.isTick with
      | false => simp
      | true => simp [s.tick_silent_of_noTimers e ⟨h.1, h.2.1, h.2.2⟩ hb]

/-- C1: for every sequence of `idle` calls, `gameStart` calls,
`stopIdleAnimations` calls, rotation-timer ticks and animation-timer ticks
from the freshly constructed controller, at most one animation variant is in
the "started, not yet stopped" state at any point: each rotation tick cleans
up the active variant before starting the next, and `gameStart` and
`stopIdleAnimations` clean up the active variant before any new one can
start. -/
theorem c1_at_most_one_variant_started (evs : List ArduinoEvent) :
    ((ArduinoOutput.mk0.run evs).1).startedCount ≤ 1 :=
  ArduinoOutput.startedCount_le_one_of_inv _
    (ArduinoOutput.inv_run evs _ ArduinoOutput.inv_mk0)

/-- C2: `gameStart` calls `stopIdleAnimations` synchronously and appends its
own starting-pose command after the cleanup commands; consequently, starting
from any reachable state, after a `gameStart` no idle-animation command (a
command emitted by a rotation tick or an animation variant's own tick) is ever
emitted again unless `idle` is explicitly called in between. -/
theorem c2_gameStart_stops_idle_first (evs1 evs2 : List ArduinoEvent)
    (h : ∀ e ∈ evs2, e ≠ ArduinoEvent.idleCall) :
    (∀ s : ArduinoOutput, s.gameStart.1 = s.stopIdleAnimations.1 ∧
      s.gameStart.2 = s.stopIdleAnimations.2 ++ [RPSAction.Rock]) ∧
    ((ArduinoOutput.mk0.run evs1).1.gameStart.1.runIdleOut evs2 = []) := by
  refine ⟨fun s => ⟨rfl, rfl⟩, ?_⟩
  have hinv := ArduinoOutput.inv_run evs1 _ ArduinoOutput.inv_mk0
  exact ArduinoOutput.runIdleOut_eq_nil evs2 _
    (ArduinoOutput.noTimers_stopIdle _ hinv) h

/-- Witness for C2 at a concrete reachable state (idle entered, one rotation
tick fired, so the finger wave is running) and a concrete idle-free suffix. -/
theorem c2_gameStart_stops_idle_first_witness :
    (∀ e ∈ [ArduinoEvent.rotationTick, ArduinoEvent.waveTick],
      e ≠ ArduinoEvent.idleCall) ∧
    ((∀ s : ArduinoOutput, s.gameStart.1 = s.stopIdleAnimations.1 ∧
      s.gameStart.2 = s.stopIdleAnimations.2 ++ [RPSAction.Rock]) ∧
    ((ArduinoOutput.mk0.run
        [ArduinoEvent.idleCall, ArduinoEvent.rotationTick]).1.gameStart.1.runIdleOut
      [ArduinoEvent.rotationTick, ArduinoEvent.waveTick] = [])) :=
  ⟨by decide,
    c2_gameStart_stops_idle_first
      [ArduinoEvent.idleCall, ArduinoEvent.rotationTick]
      [ArduinoEvent.rotationTick, ArduinoEvent.waveTick] (by decide)⟩

theorem CycleGesturesAnimation.runTicks_stopped (n : Nat) :
    ({ timer := none } : CycleGesturesAnimation).runTicks n =
      ({ timer := none }, []) := by
  induction n with
  | zero => rfl
  | succ n ih => simp [CycleGesturesAnimation.runTicks,
      CycleGesturesAnimation.tick, ih]

/-- C3: `CycleGesturesAnimation`, started once and left to its own interval
for at least the two further ticks it needs, emits exactly the three move
commands rock, paper, scissors in that order (one on start, one per tick) and
then self-cancels its timer: every further tick is silent and the timer handle
stays null, with no external cleanup call. -/
theorem c3_gestureCycle_emits_three (n : Nat) (h : 2 ≤ n) :
    ((CycleGesturesAnimation.start { timer := none }).2 ++
      ((CycleGesturesAnimation.start { timer := none }).1.runTicks n).2 =
      [RPSAction.Rock, RPSAction.Paper, RPSAction.Scissors]) ∧
    ((CycleGesturesAnimation.start { timer := none }).1.runTicks n).1.timer =
      none := by
  obtain ⟨k, rfl⟩ : ∃ k, n = k + 2 := ⟨n - 2, by omega⟩
  simp [CycleGesturesAnimation.start, CycleGesturesAnimation.runTicks,
    CycleGesturesAnimation.tick, CycleGesturesAnimation.cleanup,
    CycleGesturesAnimation.runTicks_stopped, RPSAction.Rock, RPSAction.Paper,
    RPSAction.Scissors]

/-- Witness for C3 at the minimal run length of two ticks. -/
theorem c3_gestureCycle_emits_three_witness :
    2 ≤ 2 ∧
    (((CycleGesturesAnimation.start { timer := none }).2 ++
      ((CycleGesturesAnimation.start { timer := none }).1.runTicks 2).2 =
      [RPSAction.Rock, RPSAction.Paper, RPSAction.Scissors]) ∧
    ((CycleGesturesAnimation.start { timer := none }).1.runTicks 2).1.timer =
      none) :=
  ⟨by decide, c3_gestureCycle_emits_three 2 (by decide)⟩

/-- C4 counterexample: the first interval tick after starting the finger wave
emits the curl code of finger 3 followed by the relax code of finger 0; in
particular the first command of the tick is not the relax code of any finger,
so the tick does not send "a relax command for one finger and a curl command
for the next finger". -/
theorem c4_fingerWave_tick_curls_first :
    (FingerWaveAnimation.tick (FingerWaveAnimation.start { timer := none }).1).2 =
      [curlCode 3, relaxCode 0] ∧
    curlCode 3 ∉ [relaxCode 0, relaxCode 1, relaxCode 2, relaxCode 3,
      relaxCode 4] := by
  decide

/-- C4 amended: on start the finger wave sends one neutral move command and
initializes the finger index at 4; on every tick it sends a curl command for
the finger preceding the current index (index 0 wrapping to 4) and then a
relax command for the next finger, advancing the index modulo 5; it never
terminates on its own (the timer stays scheduled after every tick); and its
cleanup sends exactly one neutral move command and cancels the timer. -/
theorem c4_fingerWave_amended :
    (∀ a : FingerWaveAnimation,
      a.start = ({ timer := some 4 }, [RPSAction.Rock])) ∧
    (∀ f : Nat, FingerWaveAnimation.tick { timer := some f } =
      ({ timer := some ((f + 1) % 5) },
        [curlCode (if f = 0 then 4 else f - 1), relaxCode ((f + 1) % 5)])) ∧
    (∀ a : FingerWaveAnimation,
      a.cleanup = ({ timer := none }, [RPSAction.Paper])) := by
  refine ⟨fun a => rfl, fun f => ?_, fun a => ?_⟩
  · cases f <;> simp [FingerWaveAnimation.tick, curlCode, relaxCode]
  · obtain ⟨t⟩ := a
    cases t <;> simp [FingerWaveAnimation.cleanup]

/-- C5 counterexample: the wrist-turn command byte in the source enum is 4,
not 3. -/
theorem c5_turnWrist_is_not_three :
    ArduinoCommand.TurnWrist = 4 ∧ ArduinoCommand.TurnWrist ≠ 3 := by decide

/-- C5 amended: the three move codes are the values 0 through 2, the
wrist-turn command is the value 4, and the values 5 through 14 are the paired
relax/curl codes for the five fingers (odd values relax, even values curl);
the value 3 is not used. -/
theorem c5_command_values_amended :
    [RPSAction.Rock, RPSAction.Paper, RPSAction.Scissors] = [0, 1, 2] ∧
    ArduinoCommand.TurnWrist = 4 ∧
    [ArduinoCommand.ThumbRelax, ArduinoCommand.PointerRelax,
      ArduinoCommand.MiddleRelax, ArduinoCommand.RingRelax,
      ArduinoCommand.PinkyRelax] =
      [relaxCode 0, relaxCode 1, relaxCode 2, relaxCode 3, relaxCode 4] ∧
    [ArduinoCommand.ThumbCurl, ArduinoCommand.PointerCurl,
      ArduinoCommand.MiddleCurl, ArduinoCommand.RingCurl,
      ArduinoCommand.PinkyCurl] =
      [curlCode 0, curlCode 1, curlCode 2, curlCode 3, curlCode 4] ∧
    relaxCode 0 = 5 ∧ curlCode 4 = 14 := by decide

/-- C6 counterexample: in the reachable state where the rotation timer
already exists (right after a first `idle` call), a second `idle` call still
emits the neutral command, so it is not a command-free no-op. -/
theorem c6_idle_reentry_still_emits :
    ((ArduinoOutput.mk0.run [ArduinoEvent.idleCall]).1.idleTimer = true) ∧
    ((ArduinoOutput.mk0.run [ArduinoEvent.idleCall]).1.idle.2 =
      [RPSAction.Paper]) ∧
    [RPSAction.Paper] ≠ ([] : List Nat) := by decide

/-- C6 amended: `idle` always sends the neutral command, even when the
rotation timer already exists; entry is idempotent only on the timer state:
if the rotation timer exists the state is unchanged, otherwise the repeating
rotation timer is started. -/
theorem c6_idle_amended (s : ArduinoOutput) :
    s.idle.2 = [RPSAction.Paper] ∧
    s.idle.1 = (if s.idleTimer then s else { s with idleTimer := true }) :=
  ⟨rfl, rfl⟩

/-- C7: in every state, after one `stopIdleAnimations` call the current index
is null and the rotation timer is cancelled, and a second call in a row is a
complete no-op: it emits no command (even when the first call had to clean up
the finger wave, whose own cleanup sends a command) and leaves the state
unchanged. -/
theorem c7_stopIdle_twice_silent (s : ArduinoOutput) :
    s.stopIdleAnimations.1.stopIdleAnimations = (s.stopIdleAnimations.1, []) ∧
    s.stopIdleAnimations.1.idleCurrent = none ∧
    s.stopIdleAnimations.1.idleTimer = false := by
  have h1 : s.stopIdleAnimations.1.idleCurrent = none ∧
      s.stopIdleAnimations.1.idleTimer = false := by
    cases hc : s.idleCurrent <;>
      simp only [ArduinoOutput.stopIdleAnimations, hc, ArduinoOutput.animCleanup,
        FingerWaveAnimation.cleanup, TurnWristAnimation.cleanup,
        CycleGesturesAnimation.cleanup] <;>
      split_ifs <;> simp_all
  refine ⟨?_, h1.1, h1.2⟩
  obtain ⟨ha, hb⟩ := h1
  generalize s.stopIdleAnimations.1 = t at ha hb ⊢
  simp [ArduinoOutput.stopIdleAnimations, ha, hb]

/-- C8 counterexample: `shoot` sends the action value it is given, so two
different chosen moves produce two different emitted commands. -/
theorem c8_shoot_depends_on_action :
    (ArduinoOutput.mk0.shoot RPSAction.Rock).2 ≠
      (ArduinoOutput.mk0.shoot RPSAction.Paper).2 := by decide

/-- C8 amended: `shoot` sends the chosen action's own move command, so its
output depends on its argument; `robotWin`, `humanWin` and `tie` each send
the same fixed command regardless of their arguments (all three emit the
identical byte), and `score` emits nothing. -/
theorem c8_outcome_commands_amended (s : ArduinoOutput)
    (a r h r' h' : Nat) :
    s.shoot a = (s, [a]) ∧
    s.robotWin r h = (s, [RPSAction.Rock]) ∧
    s.humanWin r h = (s, [RPSAction.Rock]) ∧
    s.tie a = (s, [RPSAction.Rock]) ∧
    s.robotWin r h = s.robotWin r' h' ∧
    s.humanWin r h = s.humanWin r' h' ∧
    s.tie a = s.tie r ∧
    s.robotWin r h = s.humanWin r' h' ∧
    s.score r h = (s, []) :=
  ⟨rfl, rfl, rfl, rfl, rfl, rfl, rfl, rfl, rfl⟩

/-- C9 counterexample: `FingerWaveAnimation.cleanup` on a never-started
instance (null timer) still emits the neutral command, so its stop operation
is not observationally a no-op when called before any start or a second time
in a row. -/
theorem c9_fingerWave_cleanup_emits_unstarted :
    (FingerWaveAnimation.cleanup { timer := none }).2 = [RPSAction.Paper] ∧
    [RPSAction.Paper] ≠ ([] : List Nat) := by decide

/-- C9 amended: every variant's cleanup is safe to call in any state and
idempotent on the timer state; for `TurnWristAnimation` and
`CycleGesturesAnimation` a repeated or never-started cleanup emits nothing,
but `FingerWaveAnimation.cleanup` emits one neutral command on every call,
including when never started and on a repeated call. -/
theorem c9_cleanup_amended :
    (∀ a : TurnWristAnimation, a.cleanup = (a, [])) ∧
    (∀ a : CycleGesturesAnimation, a.cleanup.1.timer = none ∧
      a.cleanup.2 = [] ∧ a.cleanup.1.cleanup = (a.cleanup.1, [])) ∧
    (∀ a : FingerWaveAnimation,
      a.cleanup = ({ timer := none }, [RPSAction.Paper]) ∧
      a.cleanup.1.cleanup = (a.cleanup.1, [RPSAction.Paper])) := by
  refine ⟨fun a => rfl, fun a => ?_, fun a => ?_⟩
  · obtain ⟨t⟩ := a
    cases t <;> simp [CycleGesturesAnimation.cleanup]
  · obtain ⟨t⟩ := a
    cases t <;> simp [FingerWaveAnimation.cleanup]

/-- C10: one `send` call writes exactly one byte to the transport, the
command reduced modulo 2^8 into the signed range -128..127 (so in-range
values pass through unchanged), with no buffering, batching or retry. -/
theorem c10_send_single_signed_byte (command : Int) :
    sendBytes command = [toInt8 command] ∧
    (sendBytes command).length = 1 ∧
    (-128 ≤ toInt8 command ∧ toInt8 command ≤ 127) ∧
    toInt8 command = (command + 128) % 256 - 128 ∧
    (-128 ≤ command → command ≤ 127 → toInt8 command = command) := by
  refine ⟨rfl, rfl, ?_, ?_, ?_⟩ <;> unfold toInt8 <;> split <;> omega

/-- Witness for C10 at the in-range command value 100. -/
theorem c10_send_single_signed_byte_witness :
    sendBytes 100 = [toInt8 100] ∧
    (sendBytes 100).length = 1 ∧
    (-128 ≤ toInt8 100 ∧ toInt8 100 ≤ 127) ∧
    toInt8 100 = ((100 : Int) + 128) % 256 - 128 ∧
    (-128 ≤ (100 : Int) → (100 : Int) ≤ 127 → toInt8 100 = 100) :=
  c10_send_single_signed_byte 100

end RPSArduino
